import Mathlib

/-!
Verification development for the gfh-notification-service repository.

The definitions below are shallow embeddings, translated from the TypeScript
source of the repository:
* `RabbitMQ`   — src/queue/rabbit-mq.service.ts (broker link: reconnect state,
                 backoff, per-message consume semantics);
* `NotificationHandlings` — notification-handlings.service.ts (dispatch router);
* `Bmi`        — the BMI handler (BmiService.handleBmiNotification, most
                 complete variant) together with
                 InAppNotificationService.sendInAppBMINotification;
* `InAppGateway` — the socket gateway's in-memory topic registry
                 (in-app-notification.gateway.ts).

Theorems settling the individual claims follow the definitions.
-/

namespace RabbitMQ

/-- A broker acknowledgement command issued by the consumer callback:
`ack` or `nack allUpTo requeue` (mirroring `channel.ack` / `channel.nack`). -/
inductive BrokerAction
  | ack
  | nack (allUpTo : Bool) (requeue : Bool)
deriving DecidableEq, Repr

/-- Per-message behaviour of the consumer callback registered by
`consumeMessage` (rabbit-mq.service.ts lines 419-438).  `decode` models
`JSON.parse` on the body (`none` = parse throws), `handler` models the awaited
user callback (`false` = it throws).  The try block parses, runs the callback
and acks; the catch block nacks with `allUpTo = false, requeue = false`. -/
def consumeMessage {α : Type} (message : Option String)
    (decode : String → Option α) (handler : α → Bool) : List BrokerAction :=
  match message with
  | none => []
  | some body =>
    match decode body with
    | none => [BrokerAction.nack false false]
    | some content =>
      if handler content then [BrokerAction.ack]
      else [BrokerAction.nack false false]

/-- Per-message behaviour of the consumer callback registered by
`processTasks` (rabbit-mq.service.ts lines 282-305): same shape, but the
catch block nacks with `allUpTo = false, requeue = true`. -/
def processTasks {α : Type} (message : Option String)
    (decode : String → Option α) (processor : α → Bool) : List BrokerAction :=
  match message with
  | none => []
  | some body =>
    match decode body with
    | none => [BrokerAction.nack false true]
    | some task =>
      if processor task then [BrokerAction.ack]
      else [BrokerAction.nack false true]

/-- `maxReconnectAttempts` field (value 10). -/
def maxReconnectAttempts : Nat := 10

/-- `reconnectInterval` field (5000 ms), as an exact rational. -/
def reconnectInterval : ℚ := 5000

/-- The mutable connection-management state of `RabbitMQService`:
`reconnectAttempts` and `isShuttingDown` are the service's fields;
`pendingTimers` counts reconnect timers created by `setTimeout` that have not
yet fired (instrumentation of the runtime, not a field of the class). -/
structure ConnState where
  reconnectAttempts : Nat
  isShuttingDown : Bool
  pendingTimers : Nat
deriving DecidableEq, Repr

/-- Result of one call to `handleDisconnect`: the updated state, the backoff
delay of the timer it scheduled (if any), and whether the terminal
`Failed to reconnect after ... attempts` error was logged. -/
structure DisconnectResult where
  state : ConnState
  scheduledTimer : Option ℚ
  fatalLogged : Bool
deriving DecidableEq, Repr

/-- `handleDisconnect` (rabbit-mq.service.ts lines 109-133), translated
clause by clause: return if shutting down; if `reconnectAttempts <
maxReconnectAttempts` increment the counter and schedule a timer with delay
`reconnectInterval * 1.5 ^ (reconnectAttempts - 1)` (computed after the
increment); otherwise log the fatal message and schedule nothing. -/
def handleDisconnect (s : ConnState) : DisconnectResult :=
  if s.isShuttingDown then ⟨s, none, false⟩
  else if s.reconnectAttempts < maxReconnectAttempts then
    let attempts := s.reconnectAttempts + 1
    let timeout := reconnectInterval * (3 / 2 : ℚ) ^ (attempts - 1)
    ⟨⟨attempts, s.isShuttingDown, s.pendingTimers + 1⟩, some timeout, false⟩
  else ⟨s, none, true⟩

/-- `connect` (rabbit-mq.service.ts lines 66-103), restricted to its effect on
the connection-management state: on success the attempt counter is reset to 0
(line 84); on failure the catch block calls `handleDisconnect`. -/
def connect (s : ConnState) (success : Bool) : DisconnectResult :=
  if success then ⟨⟨0, s.isShuttingDown, s.pendingTimers⟩, none, false⟩
  else handleDisconnect s

/-- A pending reconnect timer fires: the timer is consumed and its callback
runs `connect`. -/
def timerFires (s : ConnState) (success : Bool) : DisconnectResult :=
  connect ⟨s.reconnectAttempts, s.isShuttingDown, s.pendingTimers - 1⟩ success

/-- The fresh, connected service state (counter 0, not shutting down, no
pending timer). -/
def initialState : ConnState := ⟨0, false, 0⟩

/-- State after the initial disconnect trigger (transport error or unexpected
close on a live connection) invokes `handleDisconnect` once. -/
def afterTrigger : DisconnectResult := handleDisconnect initialState

/-- State after the initial trigger followed by `k` consecutive failed
reconnect attempts: each pending timer fires and its `connect` call fails. -/
def afterFailedAttempts : Nat → DisconnectResult
  | 0 => afterTrigger
  | k + 1 => timerFires (afterFailedAttempts k).state false

/-- The backoff delay the spec assigns to reconnect attempt `n` (1-indexed):
`reconnectInterval * 1.5 ^ (n - 1)`. -/
def backoffDelay (n : Nat) : ℚ := reconnectInterval * (3 / 2 : ℚ) ^ (n - 1)

/-- Claim C1 as stated: for every message delivered to the broker link's
consume operation, a decode failure is nacked without requeue and a handler
failure is nacked with requeue. -/
def decodeVsHandlerNackClaim : Prop :=
  ∀ (body : String) (decode : String → Option Nat) (handler : Nat → Bool),
    (decode body = none →
      consumeMessage (some body) decode handler = [BrokerAction.nack false false] ∧
      processTasks (some body) decode handler = [BrokerAction.nack false false]) ∧
    (∀ c, decode body = some c → handler c = false →
      consumeMessage (some body) decode handler = [BrokerAction.nack false true] ∧
      processTasks (some body) decode handler = [BrokerAction.nack false true])

end RabbitMQ

/-- C1 (counterexample): the claim fails on the code.  With a message whose
body decodes successfully and a handler that throws, `consumeMessage` issues
`nack` with requeue disabled, not enabled as the claim requires. -/
theorem C1_counterexample : ¬ RabbitMQ.decodeVsHandlerNackClaim := by
  intro h
  have h2 := (h "m" (fun _ => some 0) (fun _ => false)).2 0 rfl rfl
  have h3 : RabbitMQ.consumeMessage (some "m") (fun _ => some 0) (fun _ => false)
      = [RabbitMQ.BrokerAction.nack false false] := rfl
  rw [h3] at h2
  exact absurd (List.head_eq_of_cons_eq h2.1) (by decide)

/-- C1 (amended): the requeue flag depends on which consume primitive is used,
not on the kind of failure.  In `consumeMessage` both a decode failure and a
handler failure are nacked with requeue disabled; in `processTasks` both are
nacked with requeue enabled. -/
theorem C1_amended_nack_semantics {α : Type} (body : String)
    (decode : String → Option α) (handler : α → Bool) :
    (decode body = none →
      RabbitMQ.consumeMessage (some body) decode handler
        = [RabbitMQ.BrokerAction.nack false false]) ∧
    (∀ c, decode body = some c → handler c = false →
      RabbitMQ.consumeMessage (some body) decode handler
        = [RabbitMQ.BrokerAction.nack false false]) ∧
    (decode body = none →
      RabbitMQ.processTasks (some body) decode handler
        = [RabbitMQ.BrokerAction.nack false true]) ∧
    (∀ c, decode body = some c → handler c = false →
      RabbitMQ.processTasks (some body) decode handler
        = [RabbitMQ.BrokerAction.nack false true]) := by
  refine ⟨fun hd => ?_, fun c hc hh => ?_, fun hd => ?_, fun c hc hh => ?_⟩
  · simp [RabbitMQ.consumeMessage, hd]
  · simp [RabbitMQ.consumeMessage, hc, hh]
  · simp [RabbitMQ.processTasks, hd]
  · simp [RabbitMQ.processTasks, hc, hh]

/-- C1 (witness): the amended statement evaluated on a concrete decode failure
for `consumeMessage` and a concrete handler failure for `processTasks`. -/
theorem C1_amended_witness :
    RabbitMQ.consumeMessage (some "bad") (fun _ => (none : Option Nat)) (fun _ => true)
      = [RabbitMQ.BrokerAction.nack false false] ∧
    RabbitMQ.processTasks (some "ok") (fun _ => some 7) (fun _ => false)
      = [RabbitMQ.BrokerAction.nack false true] :=
  ⟨(C1_amended_nack_semantics "bad" (fun _ => (none : Option Nat)) (fun _ => true)).1 rfl,
   (C1_amended_nack_semantics "ok" (fun _ => some 7) (fun _ => false)).2.2.2 7 rfl rfl⟩

/-- C2: every delivered (non-null) message produces exactly one broker
acknowledgement action — one `ack` or one `nack` — from either consume
callback, whatever the decode and handler outcomes. -/
theorem C2_exactly_one_ack {α : Type} (body : String)
    (decode : String → Option α) (handler : α → Bool) :
    (RabbitMQ.consumeMessage (some body) decode handler).length = 1 ∧
    (RabbitMQ.processTasks (some body) decode handler).length = 1 := by
  constructor <;>
    · simp only [RabbitMQ.consumeMessage, RabbitMQ.processTasks]
      cases decode body with
      | none => rfl
      | some c => cases h : handler c <;> simp [h]

/-- C3: the code has no guard against concurrent disconnect triggers.  From
the reachable state right after a first trigger (one reconnect timer already
pending), a second trigger — e.g. the close event that follows an error event
on the same disconnection — runs `handleDisconnect` again, which advances the
attempt counter to 2 and schedules a second timer (delay 7500 ms), instead of
being a no-op as the claim requires. -/
theorem C3_second_trigger_schedules_second_timer :
    RabbitMQ.afterTrigger.state.pendingTimers = 1 ∧
    (RabbitMQ.handleDisconnect RabbitMQ.afterTrigger.state).state.pendingTimers = 2 ∧
    (RabbitMQ.handleDisconnect RabbitMQ.afterTrigger.state).state.reconnectAttempts = 2 ∧
    (RabbitMQ.handleDisconnect RabbitMQ.afterTrigger.state).scheduledTimer = some 7500 := by
  refine ⟨rfl, rfl, rfl, ?_⟩
  norm_num [RabbitMQ.handleDisconnect, RabbitMQ.afterTrigger, RabbitMQ.initialState,
    RabbitMQ.reconnectInterval, RabbitMQ.maxReconnectAttempts]

/-- C4: after the initial disconnect trigger and exactly `maxReconnectAttempts`
(= 10) consecutive failed reconnect attempts with no intervening success, no
further timer is scheduled, the fatal message is logged, no timer remains
pending, and the state is terminal: every further disconnect call in a state
with the counter at `maxReconnectAttempts` schedules nothing, changes nothing
and logs the fatal condition — the link never auto-retries.  For every
earlier failure count `k < 10` a timer is still scheduled. -/
theorem C4_reconnect_exhaustion_terminal :
    (RabbitMQ.afterFailedAttempts 10).scheduledTimer = none ∧
    (RabbitMQ.afterFailedAttempts 10).fatalLogged = true ∧
    (RabbitMQ.afterFailedAttempts 10).state.pendingTimers = 0 ∧
    (∀ k, k < 10 → (RabbitMQ.afterFailedAttempts k).scheduledTimer ≠ none) ∧
    (∀ s : RabbitMQ.ConnState,
      s.reconnectAttempts = RabbitMQ.maxReconnectAttempts → s.isShuttingDown = false →
      RabbitMQ.handleDisconnect s = ⟨s, none, true⟩) := by
  refine ⟨by decide, by decide, by decide, by decide, fun s h1 h2 => ?_⟩
  simp [RabbitMQ.handleDisconnect, h1, h2]

/-- C4 (witness): the terminal clause instantiated at the concrete exhausted
state. -/
theorem C4_witness :
    RabbitMQ.handleDisconnect ⟨10, false, 0⟩
      = ⟨⟨10, false, 0⟩, none, true⟩ :=
  C4_reconnect_exhaustion_terminal.2.2.2.2 ⟨10, false, 0⟩ rfl rfl

/-- C5: when a disconnect is handled with the counter at `n - 1` (so the timer
being scheduled is reconnect attempt `n`, `1 ≤ n ≤ 10`), the scheduled delay
is exactly `reconnectInterval * 1.5 ^ (n - 1)` = `5000 * (3/2) ^ (n - 1)` ms;
this delay is strictly increasing in `n`; the attempt counter is reset to 0
exactly by a successful `connect` — a failing `connect` instead advances it. -/
theorem C5_backoff_formula_and_reset :
    (∀ (s : RabbitMQ.ConnState) (n : Nat),
      s.isShuttingDown = false → 1 ≤ n → n ≤ RabbitMQ.maxReconnectAttempts →
      s.reconnectAttempts = n - 1 →
      (RabbitMQ.handleDisconnect s).scheduledTimer = some (RabbitMQ.backoffDelay n)) ∧
    (∀ n, 1 ≤ n → RabbitMQ.backoffDelay n < RabbitMQ.backoffDelay (n + 1)) ∧
    (∀ s : RabbitMQ.ConnState, (RabbitMQ.connect s true).state.reconnectAttempts = 0) ∧
    (∀ s : RabbitMQ.ConnState,
      s.isShuttingDown = false →
      s.reconnectAttempts < RabbitMQ.maxReconnectAttempts →
      (RabbitMQ.connect s false).state.reconnectAttempts = s.reconnectAttempts + 1) := by
  refine ⟨fun s n hsd h1 h10 hatt => ?_, fun n h1 => ?_, fun s => ?_, fun s hsd hlt => ?_⟩
  · have hlt : s.reconnectAttempts < RabbitMQ.maxReconnectAttempts := by
      simp only [RabbitMQ.maxReconnectAttempts] at h10 ⊢
      omega
    rw [hatt] at hlt
    simp [RabbitMQ.handleDisconnect, hsd, hlt, RabbitMQ.backoffDelay, hatt]
  · have hpos : (0 : ℚ) < (3 / 2 : ℚ) ^ (n - 1) := by positivity
    have hsucc : n - 1 + 1 = n := Nat.succ_pred_eq_of_pos h1
    simp only [RabbitMQ.backoffDelay, RabbitMQ.reconnectInterval, Nat.add_sub_cancel]
    calc (5000 : ℚ) * (3 / 2 : ℚ) ^ (n - 1)
        < 5000 * ((3 / 2 : ℚ) ^ (n - 1) * (3 / 2)) := by nlinarith
      _ = 5000 * (3 / 2 : ℚ) ^ (n - 1 + 1) := by ring
      _ = 5000 * (3 / 2 : ℚ) ^ n := by rw [hsucc]
  · simp [RabbitMQ.connect]
  · simp [RabbitMQ.connect, RabbitMQ.handleDisconnect, hsd, hlt]

/-- C5 (witness): the backoff of attempt 3 from the reachable state with two
failed attempts is `5000 * 1.5 ^ 2 = 11250` ms, the delays of attempts 1 and 2
are strictly ordered, and success/failure reset behaviour at a concrete
state. -/
theorem C5_witness :
    (RabbitMQ.handleDisconnect ⟨2, false, 0⟩).scheduledTimer
      = some (RabbitMQ.backoffDelay 3) ∧
    RabbitMQ.backoffDelay 1 < RabbitMQ.backoffDelay 2 ∧
    (RabbitMQ.connect ⟨5, false, 0⟩ true).state.reconnectAttempts = 0 ∧
    (RabbitMQ.connect ⟨5, false, 0⟩ false).state.reconnectAttempts = 6 :=
  ⟨C5_backoff_formula_and_reset.1 ⟨2, false, 0⟩ 3 rfl (by decide) (by decide) rfl,
   C5_backoff_formula_and_reset.2.1 1 (by decide),
   C5_backoff_formula_and_reset.2.2.1 ⟨5, false, 0⟩,
   C5_backoff_formula_and_reset.2.2.2 ⟨5, false, 0⟩ rfl (by decide)⟩

namespace NotificationHandlings

/-- The eight notification categories (notification-handling.const.ts,
`NOTIFICATION_TYPES`). -/
inductive NOTIFICATION_TYPES
  | user_notification
  | system_notification
  | admin_notification
  | marketing_notification
  | promotional_notification
  | security_notification
  | transactional_notification
  | vendor_notification
deriving DecidableEq, Repr

/-- The per-domain event vocabulary of the `user` category
(`APP_USERS_NOTIFICATION_SETTINGS_EVENTS`; the four members referenced by the
switch in `handleUserNotification`). -/
inductive APP_USERS_NOTIFICATION_SETTINGS_EVENTS
  | bmi_notification
  | bmr_notification
  | body_stats_notification
  | tdee_notification
deriving DecidableEq, Repr

/-- A classification field as it arrives on the wire: absent (falsy), present
but not one of the recognized values, or a recognized value. -/
inductive FieldValue (α : Type)
  | missing
  | unrecognized (raw : String)
  | known (value : α)
deriving DecidableEq, Repr

/-- The classification-relevant part of a decoded `GeneralNotificationFormat`
message: its `type` field and the `data.event` field. -/
structure GeneralNotificationFormat where
  type : FieldValue NOTIFICATION_TYPES
  event : FieldValue APP_USERS_NOTIFICATION_SETTINGS_EVENTS
deriving DecidableEq, Repr

/-- A terminal handler the router can invoke.  The seven non-user category
methods (`handleSystemNotification`, ...) only log and return, so each is the
terminal handler of its category; within the `user` category the terminal
handler selected by the event switch is `bmiService.handleBmiNotification`
(the other three event cases have their handler calls commented out). -/
inductive Handler
  | bmiHandler
  | systemHandler
  | transactionalHandler
  | adminHandler
  | marketingHandler
  | promotionalHandler
  | securityHandler
  | vendorHandler
deriving DecidableEq, Repr

/-- Observable result of one dispatch: the terminal handlers invoked, in
order, and the number of `logger.warn` calls made. -/
structure DispatchResult where
  handlers : List Handler
  warnings : Nat
deriving DecidableEq, Repr

/-- `handleUserNotification` (notification-handlings.service.ts lines
114-157): switch on `notification.data?.event`.  The BMI case invokes the BMI
handler; the BMR / body-stats / TDEE cases are present but their handler
calls are commented out; an unrecognized event and a missing event each log a
warning. -/
def handleUserNotification
    (event : FieldValue APP_USERS_NOTIFICATION_SETTINGS_EVENTS) : DispatchResult :=
  match event with
  | .missing => ⟨[], 1⟩
  | .unrecognized _ => ⟨[], 1⟩
  | .known .bmi_notification => ⟨[Handler.bmiHandler], 0⟩
  | .known .bmr_notification => ⟨[], 0⟩
  | .known .body_stats_notification => ⟨[], 0⟩
  | .known .tdee_notification => ⟨[], 0⟩

/-- `handleNotification` (notification-handlings.service.ts lines 57-108):
switch on `notification.type`; the `user` case delegates to
`handleUserNotification`; every other recognized category invokes its category
handler; an unrecognized type and a missing type each log a warning. -/
def handleNotification (n : GeneralNotificationFormat) : DispatchResult :=
  match n.type with
  | .missing => ⟨[], 1⟩
  | .unrecognized _ => ⟨[], 1⟩
  | .known .user_notification => handleUserNotification n.event
  | .known .system_notification => ⟨[Handler.systemHandler], 0⟩
  | .known .admin_notification => ⟨[Handler.adminHandler], 0⟩
  | .known .marketing_notification => ⟨[Handler.marketingHandler], 0⟩
  | .known .promotional_notification => ⟨[Handler.promotionalHandler], 0⟩
  | .known .security_notification => ⟨[Handler.securityHandler], 0⟩
  | .known .transactional_notification => ⟨[Handler.transactionalHandler], 0⟩
  | .known .vendor_notification => ⟨[Handler.vendorHandler], 0⟩

/-- Whether an exception escapes `handleNotification`: its catch block
re-throws handler errors (line 106), and nothing else in the dispatch throws,
so an exception escapes exactly when some invoked handler throws. -/
def dispatchEscapes (n : GeneralNotificationFormat)
    (handlerThrows : Handler → Bool) : Bool :=
  (handleNotification n).handlers.any handlerThrows

/-- A valid category/event combination in the sense of claim C6: the category
is recognized and, for the `user` category, the event is recognized. -/
def validCombo (n : GeneralNotificationFormat) : Bool :=
  match n.type with
  | .known .user_notification =>
    match n.event with
    | .known _ => true
    | _ => false
  | .known _ => true
  | _ => false

/-- Claim C6 as stated: every valid combination invokes exactly one handler;
every invalid combination invokes zero handlers, logs a warning and lets no
exception escape. -/
def dispatchClaim : Prop :=
  ∀ (n : GeneralNotificationFormat) (handlerThrows : Handler → Bool),
    (validCombo n = true → (handleNotification n).handlers.length = 1) ∧
    (validCombo n = false →
      (handleNotification n).handlers = [] ∧
      1 ≤ (handleNotification n).warnings ∧
      dispatchEscapes n handlerThrows = false)

end NotificationHandlings

/-- C6 (counterexample): the claim fails on the code.  A `user` notification
with the recognized event `bmr_notification` is a valid combination, yet the
switch case for it has its handler call commented out, so zero handlers are
invoked. -/
theorem C6_counterexample : ¬ NotificationHandlings.dispatchClaim := by
  intro h
  have h1 := (h ⟨.known .user_notification,
    .known .bmr_notification⟩ (fun _ => false)).1 rfl
  simp [NotificationHandlings.handleNotification,
    NotificationHandlings.handleUserNotification] at h1

/-- C6 (amended): among valid combinations, the seven non-user categories and
the user/BMI combination each invoke exactly one handler, while the user
events BMR, body-stats and TDEE are recognized without warning but invoke
zero handlers (their implementations are commented out); every invalid
combination invokes zero handlers, logs a warning, and no exception escapes
the dispatch. -/
theorem C6_amended_dispatch (n : NotificationHandlings.GeneralNotificationFormat)
    (handlerThrows : NotificationHandlings.Handler → Bool) :
    (NotificationHandlings.validCombo n = true →
      ((n.type = .known .user_notification →
          n.event = .known .bmi_notification) →
        (NotificationHandlings.handleNotification n).handlers.length = 1) ∧
      ((n.type = .known .user_notification ∧
          n.event ≠ .known .bmi_notification) →
        (NotificationHandlings.handleNotification n).handlers = [] ∧
        (NotificationHandlings.handleNotification n).warnings = 0)) ∧
    (NotificationHandlings.validCombo n = false →
      (NotificationHandlings.handleNotification n).handlers = [] ∧
      1 ≤ (NotificationHandlings.handleNotification n).warnings ∧
      NotificationHandlings.dispatchEscapes n handlerThrows = false) := by
  obtain ⟨t, e⟩ := n
  cases t with
  | missing =>
    simp [NotificationHandlings.validCombo, NotificationHandlings.handleNotification,
      NotificationHandlings.dispatchEscapes]
  | unrecognized raw =>
    simp [NotificationHandlings.validCombo, NotificationHandlings.handleNotification,
      NotificationHandlings.dispatchEscapes]
  | known c =>
    cases c <;> cases e <;>
      simp [NotificationHandlings.validCombo, NotificationHandlings.handleNotification,
        NotificationHandlings.handleUserNotification,
        NotificationHandlings.dispatchEscapes]
    rename_i ev
    cases ev <;> simp

/-- C6 (witness): the amended statement evaluated at the concrete valid
combination system-category / no event (one handler invoked) and extracted at
the concrete invalid combination unrecognized category (zero handlers, one
warning, no escape). -/
theorem C6_witness :
    (NotificationHandlings.handleNotification
      ⟨.known .system_notification, .missing⟩).handlers.length = 1 ∧
    (NotificationHandlings.handleNotification
      ⟨.unrecognized "mystery", .missing⟩).handlers = [] :=
  ⟨((C6_amended_dispatch ⟨.known .system_notification, .missing⟩
      (fun _ => false)).1 rfl).1 (fun hu => by cases hu),
   ((C6_amended_dispatch ⟨.unrecognized "mystery", .missing⟩
      (fun _ => false)).2 rfl).1⟩

namespace Bmi

/-- Log severities (`LOG_LEVELS`, logs.const.ts). -/
inductive LOG_LEVELS
  | info
  | warning
  | error
  | debug
deriving DecidableEq, Repr

/-- Log channel tags (`LOG_TYPES`, logs.const.ts). -/
inductive LOG_TYPES
  | notification_email
  | notification_telegram
  | notification_in_app
  | notification_system
deriving DecidableEq, Repr

/-- The control-relevant part of a recipient's notification-settings record:
the three per-channel enable flags read by `handleBmiNotification` (the
record's identity, contact and timezone fields only feed the payloads and
log messages, never the control flow). -/
structure AppUsersSettings where
  email_notification : Bool
  in_app_notification : Bool
  telegram_notification : Bool
deriving DecidableEq, Repr

/-- Observable result of one `sendInAppBMINotification` call
(in-app-notification.service.ts lines 247-283). -/
structure InAppSendResult where
  createCalls : Nat
  gatewayPushCalls : Nat
  threw : Bool
deriving DecidableEq, Repr

/-- `sendInAppBMINotification`: throws a `BadRequestException` unless the
notification's event is `BMI_NOTIFICATION`; otherwise persists the record via
`create` (which may throw) and then pushes over the gateway
(`sendBMINotification`, non-throwing — it returns `false` when the socket
server is not ready, and the boolean is ignored).  Any error is caught,
logged and re-thrown as an `InternalServerErrorException`. -/
def sendInAppBMINotification (eventIsBmi : Bool) (createSucceeds : Bool) :
    InAppSendResult :=
  if eventIsBmi = false then ⟨0, 0, true⟩
  else if createSucceeds then ⟨1, 1, false⟩
  else ⟨1, 0, true⟩

/-- Observable trace of one `handleBmiNotification` call: how often each
delivery sink was invoked, which `ServiceLogsService.create` records were
written (channel tag and severity, in order), whether the telegram branch
ran, and whether the call threw. -/
structure BmiTrace where
  emailSinkCalls : Nat
  serviceLogCreates : List (LOG_TYPES × LOG_LEVELS)
  inAppCreateCalls : Nat
  gatewayPushCalls : Nat
  telegramBranchRun : Bool
  threw : Bool
deriving DecidableEq, Repr

/-- `handleBmiNotification` (BmiService, health-index variant, lines 38-133):
if no settings record exists, warn and return; if email is enabled, call the
email sink once (it returns a boolean and never throws) and record the
attempt through the log sink with severity `info` on success and `error` on
failure; if in-app is enabled, call `sendInAppBMINotification` — the call is
not guarded, so if it throws, the error propagates and the telegram branch is
skipped; if telegram is enabled, the branch only logs (its sender call is
commented out).  `eventIsBmi` is the event field forwarded to the in-app
service (always the BMI event on the only call path). -/
def handleBmiNotification (settings : Option AppUsersSettings)
    (eventIsBmi : Bool) (emailSent : Bool) (inAppCreateSucceeds : Bool) :
    BmiTrace :=
  match settings with
  | none => ⟨0, [], 0, 0, false, false⟩
  | some st =>
    let emailCalls := if st.email_notification then 1 else 0
    let emailLogs : List (LOG_TYPES × LOG_LEVELS) :=
      if st.email_notification then
        [(LOG_TYPES.notification_email,
          if emailSent then LOG_LEVELS.info else LOG_LEVELS.error)]
      else []
    if st.in_app_notification then
      let r := sendInAppBMINotification eventIsBmi inAppCreateSucceeds
      if r.threw then
        ⟨emailCalls, emailLogs, r.createCalls, r.gatewayPushCalls, false, true⟩
      else
        ⟨emailCalls, emailLogs, r.createCalls, r.gatewayPushCalls,
          st.telegram_notification, false⟩
    else ⟨emailCalls, emailLogs, 0, 0, st.telegram_notification, false⟩

/-- Claim C7 as stated: for a recipient with a settings record, every enabled
sink is attempted independently, no sink failure prevents the other enabled
sinks, and no delivery-sink failure makes the overall handling throw. -/
def independentSinksClaim : Prop :=
  ∀ (st : AppUsersSettings) (emailSent createOk : Bool),
    (handleBmiNotification (some st) true emailSent createOk).threw = false ∧
    (st.email_notification = true →
      (handleBmiNotification (some st) true emailSent createOk).emailSinkCalls = 1) ∧
    (st.in_app_notification = true →
      (handleBmiNotification (some st) true emailSent createOk).inAppCreateCalls = 1) ∧
    (st.telegram_notification = true →
      (handleBmiNotification (some st) true emailSent createOk).telegramBranchRun = true)

/-- Claim C8 as stated: with preferences email ∧ in-app enabled, one email
sink call and one persistence-sink create occur, each attempt is recorded
through the log sink, and an email failure still leaves the create in place. -/
def bmiScenarioClaim : Prop :=
  ∀ (tg emailSent : Bool),
    (handleBmiNotification (some ⟨true, true, tg⟩) true emailSent true).emailSinkCalls = 1 ∧
    (handleBmiNotification (some ⟨true, true, tg⟩) true emailSent true).inAppCreateCalls = 1 ∧
    (∃ l, (LOG_TYPES.notification_email, l) ∈
      (handleBmiNotification (some ⟨true, true, tg⟩) true emailSent true).serviceLogCreates) ∧
    (∃ l, (LOG_TYPES.notification_in_app, l) ∈
      (handleBmiNotification (some ⟨true, true, tg⟩) true emailSent true).serviceLogCreates)

end Bmi

/-- C7 (counterexample): the claim fails on the code.  With all three channels
enabled and a persistence failure in the in-app sink, the unguarded
`sendInAppBMINotification` call re-throws: the handling throws and the
telegram branch is never reached, so one sink's failure both blocks a sibling
sink and fails the overall handling. -/
theorem C7_counterexample : ¬ Bmi.independentSinksClaim := by
  intro h
  have h1 := (h ⟨true, true, true⟩ true false).1
  have h2 : (Bmi.handleBmiNotification (some ⟨true, true, true⟩) true true false).threw
      = true := rfl
  rw [h2] at h1
  exact absurd h1 (by decide)

/-- C7 (amended): an email-sink failure (the email sink reports failure by
returning false and never throws) blocks nothing and fails nothing: when the
in-app persistence succeeds, every enabled sink is attempted and the call
returns normally, whatever the email outcome.  An in-app persistence failure,
however, throws out of the handler (reaching the broker link) and skips the
telegram branch. -/
theorem C7_amended_sink_independence (st : Bmi.AppUsersSettings)
    (emailSent createOk : Bool) :
    (createOk = true →
      (Bmi.handleBmiNotification (some st) true emailSent createOk).threw = false ∧
      (st.email_notification = true →
        (Bmi.handleBmiNotification (some st) true emailSent createOk).emailSinkCalls = 1) ∧
      (st.in_app_notification = true →
        (Bmi.handleBmiNotification (some st) true emailSent createOk).inAppCreateCalls = 1) ∧
      (st.telegram_notification = true →
        (Bmi.handleBmiNotification (some st) true emailSent createOk).telegramBranchRun
          = true)) ∧
    (createOk = false → st.in_app_notification = true →
      (Bmi.handleBmiNotification (some st) true emailSent createOk).threw = true ∧
      (Bmi.handleBmiNotification (some st) true emailSent createOk).telegramBranchRun
        = false) := by
  obtain ⟨em, ia, tg⟩ := st
  cases em <;> cases ia <;> cases tg <;> cases emailSent <;> cases createOk <;>
    simp [Bmi.handleBmiNotification, Bmi.sendInAppBMINotification]

/-- C7 (witness): the amended statement at the all-enabled settings record,
with a failing email sink and a succeeding persistence sink, and at the same
record with a failing persistence sink. -/
theorem C7_witness :
    (Bmi.handleBmiNotification (some ⟨true, true, true⟩) true false true).threw = false ∧
    (Bmi.handleBmiNotification (some ⟨true, true, true⟩) true false true).telegramBranchRun
      = true ∧
    (Bmi.handleBmiNotification (some ⟨true, true, true⟩) true true false).threw = true :=
  ⟨((C7_amended_sink_independence ⟨true, true, true⟩ false true).1 rfl).1,
   ((C7_amended_sink_independence ⟨true, true, true⟩ false true).1 rfl).2.2.2 rfl,
   ((C7_amended_sink_independence ⟨true, true, true⟩ true false).2 rfl rfl).1⟩

/-- C8 (counterexample): the claim fails on the code.  In the scenario with
email and in-app enabled, the trace contains no `notification_in_app` record
in the log sink: the persistence attempt is logged only through the
application logger, with the explicit comment that the log sink is skipped
for it. -/
theorem C8_counterexample : ¬ Bmi.bmiScenarioClaim := by
  intro h
  obtain ⟨l, hl⟩ := (h false true).2.2.2
  have he : (Bmi.handleBmiNotification (some ⟨true, true, false⟩) true true true).serviceLogCreates
      = [(Bmi.LOG_TYPES.notification_email, Bmi.LOG_LEVELS.info)] := rfl
  rw [he] at hl
  simp at hl

/-- C8 (amended): with preferences email ∧ in-app enabled, the BMI scenario
invokes the email sink exactly once and the persistence-sink create exactly
once; the email attempt is recorded through the log sink (severity info on
success, error on failure), while the persistence attempt is not recorded
through the log sink; if the email sink returns false, the persistence-sink
create still occurs and the handling still returns normally. -/
theorem C8_amended_bmi_scenario (tg emailSent : Bool) :
    (Bmi.handleBmiNotification (some ⟨true, true, tg⟩) true emailSent true).emailSinkCalls
      = 1 ∧
    (Bmi.handleBmiNotification (some ⟨true, true, tg⟩) true emailSent true).inAppCreateCalls
      = 1 ∧
    (Bmi.handleBmiNotification (some ⟨true, true, tg⟩) true emailSent true).serviceLogCreates
      = [(Bmi.LOG_TYPES.notification_email,
          if emailSent then Bmi.LOG_LEVELS.info else Bmi.LOG_LEVELS.error)] ∧
    (emailSent = false →
      (Bmi.handleBmiNotification (some ⟨true, true, tg⟩) true emailSent true).inAppCreateCalls
        = 1 ∧
      (Bmi.handleBmiNotification (some ⟨true, true, tg⟩) true emailSent true).threw
        = false) := by
  cases tg <;> cases emailSent <;>
    simp [Bmi.handleBmiNotification, Bmi.sendInAppBMINotification]

/-- C8 (witness): the amended statement at the concrete scenario with
telegram disabled and a failing email sink. -/
theorem C8_witness :
    (Bmi.handleBmiNotification (some ⟨true, true, false⟩) true false true).inAppCreateCalls
      = 1 ∧
    (Bmi.handleBmiNotification (some ⟨true, true, false⟩) true false true).threw = false :=
  (C8_amended_bmi_scenario false false).2.2.2 rfl

namespace InAppGateway

/-- Socket identifiers (`client.id`). -/
abbrev SocketId := String

/-- User identifiers. -/
abbrev UserId := String

/-- An insertion-ordered string map (the iteration order of a JS `Map`),
as an association list with unique keys. -/
abbrev OrderedMap := List (String × List String)

/-- `Map.get`: the value at the first (unique) matching key. -/
def mapGet (m : OrderedMap) (k : String) : Option (List String) :=
  match m with
  | [] => none
  | (k2, v) :: rest => if k2 = k then some v else mapGet rest k

/-- `Map.set`: replace the value in place when the key exists (iteration
order preserved), otherwise append the new entry. -/
def mapSet (m : OrderedMap) (k : String) (v : List String) : OrderedMap :=
  match m with
  | [] => [(k, v)]
  | (k2, v2) :: rest =>
    if k2 = k then (k, v) :: rest else (k2, v2) :: mapSet rest k v

/-- `Map.delete`: remove the entry with the given key, if present. -/
def mapDelete (m : OrderedMap) (k : String) : OrderedMap :=
  match m with
  | [] => []
  | (k2, v2) :: rest => if k2 = k then rest else (k2, v2) :: mapDelete rest k

/-- The gateway's process-local registry state: `userSocketMap`
(userId → socket-id array) and `topicSubscriptions` (topic → subscriber set,
a JS `Set` modelled as a duplicate-free insertion-ordered list). -/
structure GatewayState where
  userSocketMap : OrderedMap
  topicSubscriptions : OrderedMap
deriving DecidableEq, Repr

/-- `handleRegisterUser` (gateway): fetch the user's socket list (empty when
absent), push the socket id unless already present, and store the list back.
The constant success response and the socket.io room join are not part of the
registry state. -/
def handleRegisterUser (st : GatewayState) (userId : UserId)
    (socketId : SocketId) : GatewayState :=
  let existingSocketIds := (mapGet st.userSocketMap userId).getD []
  if socketId ∈ existingSocketIds then st
  else ⟨mapSet st.userSocketMap userId (existingSocketIds ++ [socketId]),
        st.topicSubscriptions⟩

/-- `handleUnregisterUser` (gateway, lines 265-288): splice the socket id out
of the named user's list when present; delete the entry when the list becomes
empty, otherwise store it back. -/
def handleUnregisterUser (st : GatewayState) (userId : UserId)
    (socketId : SocketId) : GatewayState :=
  let existingSocketIds := (mapGet st.userSocketMap userId).getD []
  if socketId ∈ existingSocketIds then
    let rest := existingSocketIds.erase socketId
    if rest = [] then ⟨mapDelete st.userSocketMap userId, st.topicSubscriptions⟩
    else ⟨mapSet st.userSocketMap userId rest, st.topicSubscriptions⟩
  else st

/-- `removeSocketFromUser` (gateway, lines 174-191): walk the user entries in
iteration order; at the FIRST entry whose socket list contains the socket id,
splice it out (deleting the entry if the list becomes empty) and `break` —
later entries are not examined. -/
def removeSocketFromUser : OrderedMap → SocketId → OrderedMap
  | [], _ => []
  | (userId, socketIds) :: rest, socketId =>
    if socketId ∈ socketIds then
      let remaining := socketIds.erase socketId
      if remaining = [] then rest
      else (userId, remaining) :: rest
    else (userId, socketIds) :: removeSocketFromUser rest socketId

/-- `removeSocketFromTopics` (gateway, lines 197-209): walk ALL topic entries,
deleting the socket id from each subscriber set that contains it and dropping
entries whose set becomes empty (no `break` here). -/
def removeSocketFromTopics : OrderedMap → SocketId → OrderedMap
  | [], _ => []
  | (topic, subscribers) :: rest, socketId =>
    if socketId ∈ subscribers then
      let remaining := subscribers.erase socketId
      if remaining = [] then removeSocketFromTopics rest socketId
      else (topic, remaining) :: removeSocketFromTopics rest socketId
    else (topic, subscribers) :: removeSocketFromTopics rest socketId

/-- `handleDisconnect` (gateway, lines 144-150): remove the disconnected
socket from the user map, then from the topic subscriptions. -/
def handleDisconnect (st : GatewayState) (socketId : SocketId) : GatewayState :=
  ⟨removeSocketFromUser st.userSocketMap socketId,
   removeSocketFromTopics st.topicSubscriptions socketId⟩

/-- The payload of a `subscribeTopic` / `unsubscribeTopic` message: a user id
and either a single topic or an array of topics. -/
structure TopicPayload where
  userId : UserId
  topic : String ⊕ List String
deriving DecidableEq, Repr

/-- The handlers' response object. -/
structure TopicResponse where
  status : String
  message : String
  topics : List String
deriving DecidableEq, Repr

/-- `Array.isArray(topic) ? topic : [topic]`. -/
def payloadTopics : String ⊕ List String → List String
  | Sum.inl t => [t]
  | Sum.inr ts => ts

/-- `Set.add`: append the socket id unless already a member. -/
def addSubscriber (subscribers : List SocketId) (socketId : SocketId) :
    List SocketId :=
  if socketId ∈ subscribers then subscribers else subscribers ++ [socketId]

/-- The `topics.forEach` loop of `handleSubscribeTopic`: for each topic name,
fetch its subscriber set (new empty set when absent), add the socket id and
store the set back. -/
def subscribeTopics (m : OrderedMap) (socketId : SocketId) :
    List String → OrderedMap
  | [] => m
  | topicName :: rest =>
    let subscribers := (mapGet m topicName).getD []
    subscribeTopics (mapSet m topicName (addSubscriber subscribers socketId))
      socketId rest

/-- `handleSubscribeTopic` (gateway, lines 302-329): log the user id, run the
subscription loop keyed on the client's socket id, and return the success
response; the returned triple is (new state, response, log line). -/
def handleSubscribeTopic (st : GatewayState) (socketId : SocketId)
    (data : TopicPayload) : GatewayState × TopicResponse × String :=
  let topics := payloadTopics data.topic
  let logLine := "User " ++ data.userId ++ " subscribing to topics: "
    ++ String.intercalate ", " topics
  (⟨st.userSocketMap, subscribeTopics st.topicSubscriptions socketId topics⟩,
   ⟨"success", "Subscribed to " ++ toString topics.length ++ " topic(s)", topics⟩,
   logLine)

/-- The `topics.forEach` loop of `handleUnsubscribeTopic`: for each topic
name with an existing subscriber set, delete the socket id; drop the entry
when the set becomes empty, otherwise store it back. -/
def unsubscribeTopics (m : OrderedMap) (socketId : SocketId) :
    List String → OrderedMap
  | [] => m
  | topicName :: rest =>
    let m2 := match mapGet m topicName with
      | none => m
      | some subscribers =>
        let remaining := subscribers.erase socketId
        if remaining = [] then mapDelete m topicName
        else mapSet m topicName remaining
    unsubscribeTopics m2 socketId rest

/-- `handleUnsubscribeTopic` (gateway, lines 343-375): log the user id, run
the unsubscription loop keyed on the client's socket id, and return the
success response. -/
def handleUnsubscribeTopic (st : GatewayState) (socketId : SocketId)
    (data : TopicPayload) : GatewayState × TopicResponse × String :=
  let topics := payloadTopics data.topic
  let logLine := "User " ++ data.userId ++ " unsubscribing from topics: "
    ++ String.intercalate ", " topics
  (⟨st.userSocketMap, unsubscribeTopics st.topicSubscriptions socketId topics⟩,
   ⟨"success", "Unsubscribed from " ++ toString topics.length ++ " topic(s)", topics⟩,
   logLine)

end InAppGateway

/-- C9 (code evaluation at the failing input): registering one socket under
two user ids and then disconnecting it leaves the socket registered under the
second user — `removeSocketFromUser` breaks after the first matching entry,
so the disconnected endpoint is NOT removed from all user entries.  The
register-then-unregister cleanup from the empty registry, by contrast, does
hold, as does topic cleanup on disconnect. -/
theorem C9_disconnect_leaves_residual_entry :
    InAppGateway.handleDisconnect
      (InAppGateway.handleRegisterUser
        (InAppGateway.handleRegisterUser ⟨[], []⟩ "u1" "s1") "u2" "s1") "s1"
      = ⟨[("u2", ["s1"])], []⟩ ∧
    InAppGateway.handleUnregisterUser
      (InAppGateway.handleRegisterUser ⟨[], []⟩ "u1" "s1") "u1" "s1"
      = ⟨[], []⟩ := by
  constructor <;> rfl

/-- C10: the registry mutation and the returned response of both
`subscribeTopic` and `unsubscribeTopic` depend only on the client's socket id
and the topic list — two payloads from the same socket that differ only in
their `userId` field (the field is used solely in the log line) produce
identical states and identical responses. -/
theorem C10_topic_handlers_ignore_userId (st : InAppGateway.GatewayState)
    (socketId : InAppGateway.SocketId) (u1 u2 : InAppGateway.UserId)
    (topic : String ⊕ List String) :
    ((InAppGateway.handleSubscribeTopic st socketId ⟨u1, topic⟩).1
        = (InAppGateway.handleSubscribeTopic st socketId ⟨u2, topic⟩).1 ∧
      (InAppGateway.handleSubscribeTopic st socketId ⟨u1, topic⟩).2.1
        = (InAppGateway.handleSubscribeTopic st socketId ⟨u2, topic⟩).2.1) ∧
    ((InAppGateway.handleUnsubscribeTopic st socketId ⟨u1, topic⟩).1
        = (InAppGateway.handleUnsubscribeTopic st socketId ⟨u2, topic⟩).1 ∧
      (InAppGateway.handleUnsubscribeTopic st socketId ⟨u1, topic⟩).2.1
        = (InAppGateway.handleUnsubscribeTopic st socketId ⟨u2, topic⟩).2.1) :=
  ⟨⟨rfl, rfl⟩, ⟨rfl, rfl⟩⟩
